import Mathlib

/-!
Verification of the CallAnalyzer call-reconstruction engine
(`src/call_analyzer/services/call_analyzer.py`) against its
natural-language specification.

The Python source is shallowly embedded: each method of the
`CallAnalyzer` class becomes an executable Lean definition over a
`CallEvent` structure mirroring `call_analyzer/models/call_event.py`,
and the produced `Call` mirrors `call_analyzer/models/call.py`.
Python truthiness of strings (empty string is falsy) and of optional
values is modelled explicitly where the source relies on it.
-/

/-! ## String helpers (Python idioms) -/

/-- Python `pat in s` (substring containment) on character lists. -/
def containsSubL (l : List Char) (pat : List Char) : Bool :=
  match l with
  | [] => pat.isPrefixOf ([] : List Char)
  | _ :: rest => pat.isPrefixOf l || containsSubL rest pat

/-- Python `pat in s` for strings. -/
def containsSub (s pat : String) : Bool :=
  containsSubL s.data pat.data

/-- Python `s.startswith(pre)`. -/
def startsWithStr (s pre : String) : Bool :=
  pre.data.isPrefixOf s.data

/-- Python `opt or fallback` where `opt` is an optional string:
the fallback is used when `opt` is `None` or the empty string (both falsy). -/
def orFallback (o : Option String) (fallback : String) : String :=
  match o with
  | some s => if s = "" then fallback else s
  | none => fallback

/-- Python truthiness of an optional string (`None` and `""` are falsy). -/
def optTruthy (o : Option String) : Bool :=
  match o with
  | some s => s ≠ ""
  | none => false

/-! ## Data model (`models/call_event.py`, `models/call.py`) -/

/-- One raw CDR leg (`CallEvent` dataclass).  Only the fields the analyzer
reads are retained; `timestamp` is modelled as a natural number. -/
structure CallEvent where
  timestamp : Nat
  linkedid : String
  src : String
  dst : String
  channel : String
  dstchannel : String
  disposition : String
  billsec : Int
  sequence : Nat
  context : String
  cnam : Option String := none
  did : Option String := none
  accountcode : Option String := none
  userfield : Option String := none
  deriving Repr, DecidableEq

/-- The aggregated `Call` dataclass. -/
structure Call where
  start_time : Nat
  uniqueid : String
  source : String
  destination : String
  duration : Int
  status : String
  type : String
  is_internal : Bool
  is_click_to_call : Bool
  final_path : String
  original_caller_name : Option String
  transfers_from : Option String := none
  transfers_to : Option String := none
  forwards_from : Option String := none
  forwards_to : Option String := none
  did : Option String := none
  accountcode : Option String := none
  userfield : Option String := none
  deriving Repr, DecidableEq

/-- The `CallAnalyzer` constructor configuration: the set of internal
numbers and the optional list of reference numbers. -/
structure AnalyzerConfig where
  internal_numbers : List String
  reference_numbers : Option (List String)
  deriving Repr, DecidableEq

/-! ## Channel decoder (`_extract_number_from_channel`) -/

/-- Body of the regex `(\d+)-` after a technology marker: a maximal
nonempty digit run followed by a literal dash, returning the digits. -/
def matchDigitsDash (l : List Char) : Option (List Char) :=
  let ds := l.takeWhile Char.isDigit
  match l.dropWhile Char.isDigit with
  | '-' :: _ => if ds.isEmpty then none else some ds
  | _ => none

/-- Body of `([^@]+)@`: a maximal nonempty run of non-`@` characters
followed by a literal `@`, returning the run. -/
def matchLocalBody (l : List Char) : Option (List Char) :=
  let ds := l.takeWhile (fun c => c != '@')
  match l.dropWhile (fun c => c != '@') with
  | '@' :: _ => if ds.isEmpty then none else some ds
  | _ => none

/-- `re.search` for a pattern of the shape `marker` + `body`: scan
positions left to right, at each position require the literal marker
then the body, and return the body's capture of the leftmost match. -/
def searchCapture (marker : List Char) (body : List Char → Option (List Char)) :
    List Char → Option (List Char)
  | [] => none
  | c :: rest =>
    match (if marker.isPrefixOf (c :: rest) then body ((c :: rest).drop marker.length) else none) with
    | some r => some r
    | none => searchCapture marker body rest

/-- Python `captured.lstrip('9')`: remove ALL leading '9' characters. -/
def lstrip9 (l : List Char) : String :=
  String.mk (l.dropWhile (fun c => c == '9'))

/-- The raw capture of `_extract_number_from_channel` before the
`lstrip('9')` call: the four patterns tried in source order
(PJSIP, Local, SIP, IAX2), first match wins. -/
def channelRawCapture (channel : String) : Option (List Char) :=
  match searchCapture "PJSIP/".data matchDigitsDash channel.data with
  | some v => some v
  | none =>
    match searchCapture "Local/".data matchLocalBody channel.data with
    | some v => some v
    | none =>
      match searchCapture "SIP/".data matchDigitsDash channel.data with
      | some v => some v
      | none =>
        match searchCapture "IAX2/".data matchDigitsDash channel.data with
        | some v => some v
        | none => none

/-- `_extract_number_from_channel`: empty channel yields nothing; else the
patterns are tried in order and the first capture is returned with
`lstrip('9')` applied (source line 62). -/
def extract_number_from_channel (channel : String) : Option String :=
  if channel = "" then none
  else
    match searchCapture "PJSIP/".data matchDigitsDash channel.data with
    | some v => some (lstrip9 v)
    | none =>
      match searchCapture "Local/".data matchLocalBody channel.data with
      | some v => some (lstrip9 v)
      | none =>
        match searchCapture "SIP/".data matchDigitsDash channel.data with
        | some v => some (lstrip9 v)
        | none =>
          match searchCapture "IAX2/".data matchDigitsDash channel.data with
          | some v => some (lstrip9 v)
          | none => none

/-! ## Leg classifier predicates -/

/-- `_check_if_forward`: some leg's channel contains "Local/0" and its
context is "from-internal". -/
def check_if_forward (events : List CallEvent) : Bool :=
  events.any (fun e => containsSub e.channel "Local/0" && e.context == "from-internal")

/-- `_get_forward_call_events`. -/
def get_forward_call_events (events : List CallEvent) : List CallEvent :=
  if check_if_forward events then
    events.filter (fun e => containsSub e.channel "Local/0" && e.context == "from-internal")
  else []

/-- `_check_if_group_call`. -/
def check_if_group_call (events : List CallEvent) : Bool :=
  events.any (fun e => e.context == "ext-group" && containsSub e.dstchannel "Local/")

/-- `_is_internal_number`. -/
def is_internal_number (cfg : AnalyzerConfig) (number : String) : Bool :=
  cfg.internal_numbers.contains number

/-- Python `self.reference_numbers and len(self.reference_numbers) == 1`. -/
def singleRefMode (cfg : AnalyzerConfig) : Bool :=
  match cfg.reference_numbers with
  | some refs => decide (refs.length = 1)
  | none => false

/-- Python truthiness of `self.reference_numbers`. -/
def refsTruthy (cfg : AnalyzerConfig) : Bool :=
  match cfg.reference_numbers with
  | some refs => !refs.isEmpty
  | none => false

/-- The reference-number list (empty when `None`). -/
def refList (cfg : AnalyzerConfig) : List String :=
  cfg.reference_numbers.getD []

/-- The resolved source of a leg:
`self._extract_number_from_channel(event.channel) or event.src`. -/
def resolvedSrc (e : CallEvent) : String :=
  orFallback (extract_number_from_channel e.channel) e.src

/-- The plainly resolved destination
`self._extract_number_from_channel(event.dstchannel) or event.dst`,
computed by `_get_call_status` (line 143) and by the followme branch of
`_identify_actions_by_context` (line 359). -/
def statusResolvedDst (e : CallEvent) : String :=
  orFallback (extract_number_from_channel e.dstchannel) e.dst

/-- The resolved destination used by `_get_call_billsec`: when the
destination channel contains "Local/0" the raw `dst` field is used,
otherwise the decoded destination channel with raw fallback. -/
def billsecResolvedDst (e : CallEvent) : String :=
  if containsSub e.dstchannel "Local/0" then e.dst
  else orFallback (extract_number_from_channel e.dstchannel) e.dst

/-- The resolved destination used by `_identify_actions_by_context`
(`is_local` uses "Local/", not "Local/0"). -/
def pathResolvedDst (e : CallEvent) : String :=
  if containsSub e.dstchannel "Local/" then e.dst
  else orFallback (extract_number_from_channel e.dstchannel) e.dst

/-! ## Status resolver (`_get_call_status`) -/

/-- The matching condition of the `_get_call_status` scan (line 144):
`src in self.reference_numbers or dst in self.reference_numbers`. -/
def statusMatches (refs : List String) (e : CallEvent) : Bool :=
  refs.contains (resolvedSrc e) || refs.contains (statusResolvedDst e)

/-- The reference-number scan of `_get_call_status` (source lines 141-147):
walk the legs in order, adopting each matching leg's disposition as the
running status and returning immediately on "ANSWERED". -/
def status_scan (refs : List String) : List CallEvent → String → String
  | [], status => status
  | e :: rest, status =>
    if statusMatches refs e then
      if e.disposition = "ANSWERED" then "ANSWERED"
      else status_scan refs rest e.disposition
    else status_scan refs rest status

/-- `_get_call_status`. -/
def get_call_status (cfg : AnalyzerConfig) (events : List CallEvent) : String :=
  if singleRefMode cfg then
    if check_if_forward events then
      if events.any (fun e => containsSub e.disposition "ANSWERED") then "ANSWERED"
      else "NO ANSWER"
    else status_scan (refList cfg) events "NO ANSWER"
  else
    if events.any (fun e => e.disposition == "ANSWERED") then "ANSWERED"
    else if events.any (fun e => e.disposition == "BUSY") then "BUSY"
    else if events.any (fun e => e.disposition == "CONGESTION") then "CONGESTION"
    else if events.any (fun e => e.disposition == "NO ANSWER") then "NO ANSWER"
    else "FAILED"

/-! ## Duration resolver (`_get_call_billsec`) -/

/-- The single-reference matching predicate of the billsec loop
(source lines 184-191). -/
def billsecMatches (refs : List String) (e : CallEvent) : Bool :=
  refs.contains (resolvedSrc e) || refs.contains (billsecResolvedDst e)

/-- `_get_call_billsec`. -/
def get_call_billsec (cfg : AnalyzerConfig) (events : List CallEvent) : Int :=
  if events = [] then 0
  else if singleRefMode cfg then
    if check_if_forward events && check_if_group_call events then
      (events.map (fun e => e.billsec)).sum
    else
      events.foldl
        (fun acc e => if billsecMatches (refList cfg) e then acc + e.billsec else acc) 0
  else if check_if_forward events then
    ((events.filter (fun e => containsSub e.channel "Local/0" && e.context == "from-internal")).map
      (fun e => e.billsec)).sum
  else if check_if_group_call events then
    ((events.filter (fun e => !(e.context == "ext-group" && containsSub e.dstchannel "Local/"))).map
      (fun e => e.billsec)).sum
  else (events.map (fun e => e.billsec)).sum

/-! ## Direction (`_get_call_direction`) -/

/-- Raw source of the first leg (`events[0].src`); the source only
indexes `events[0]` on non-empty lists (guaranteed by `analyze_call`). -/
def firstSrc (events : List CallEvent) : String :=
  match events with
  | [] => ""
  | e :: _ => e.src

/-- Raw destination of the first leg (`events[0].dst`). -/
def firstDst (events : List CallEvent) : String :=
  match events with
  | [] => ""
  | e :: _ => e.dst

/-- `_get_call_direction`. -/
def get_call_direction (cfg : AnalyzerConfig) (events : List CallEvent)
    (is_internal : Bool) : String :=
  if is_internal then
    if refsTruthy cfg then
      if (refList cfg).contains (firstSrc events) then "sortant"
      else if (refList cfg).contains (firstDst events) then "entrant"
      else "interne"
    else "interne"
  else if events.any (fun e => containsSub e.channel "trunk") then "entrant"
  else if events.any (fun e => containsSub e.dstchannel "trunk") then "sortant"
  else "interne"

/-! ## Click-to-call (`_identify_click_to_call`) -/

/-- The tuple returned by `_identify_click_to_call`. -/
structure ClickToCall where
  is_click_to_call : Bool
  src : Option String
  dst : Option String
  duration : Int
  forward : List String
  deriving Repr, DecidableEq

/-- The click-to-call marker test:
`any(e.cnam and 'Répondre pour appeler le' in e.cnam for e in events)`. -/
def is_click_to_call_marker (events : List CallEvent) : Bool :=
  events.any (fun e =>
    match e.cnam with
    | some c => containsSub c "Répondre pour appeler le"
    | none => false)

/-- `_identify_click_to_call`.  The canonical dial leg is
`next((e for e in events if 'macro-dial' in e.context), first_event)`;
the forward loop accumulating duration and destinations is rendered as
a sum and a map over the forward legs. -/
def identify_click_to_call (events : List CallEvent) : ClickToCall :=
  match events, is_click_to_call_marker events with
  | first :: rest, true =>
    let evs := first :: rest
    let first_event_src := resolvedSrc first
    let event_dial :=
      (evs.find? (fun e => containsSub e.context "macro-dial")).getD first
    let src :=
      if startsWithStr first_event_src "0" || startsWithStr first_event_src "+" then
        event_dial.src
      else first_event_src
    let forward_events := get_forward_call_events evs
    { is_click_to_call := true
      src := some src
      dst := some first.dst
      duration := event_dial.billsec + (forward_events.map (fun e => e.billsec)).sum
      forward := forward_events.map (fun e => e.dst) }
  | _, _ =>
    { is_click_to_call := false, src := none, dst := none, duration := 0, forward := [] }

/-! ## Path reconstructor (`_identify_actions_by_context`) -/

/-- `base_number`: Python `number.split(" ")[0] if number else ''`,
i.e. the prefix before the first space. -/
def base_number (number : String) : String :=
  String.mk (number.data.takeWhile (fun c => c != ' '))

/-- Mutable accumulator state of `_identify_actions_by_context`:
the path list, the set of emitted path keys, the virtual-forward marker
and the four transfer/forward endpoints. -/
structure PathState where
  path : List String
  seen : List String
  virtual_forward : String
  transfers_from : Option String
  transfers_to : Option String
  forwards_from : Option String
  forwards_to : Option String
  deriving Repr, DecidableEq

/-- Initial accumulator state. -/
def initPathState : PathState :=
  { path := [], seen := [], virtual_forward := ""
    transfers_from := none, transfers_to := none
    forwards_from := none, forwards_to := none }

/-- The emitted path key: the hop number with an " (ANSWERED)" suffix when
the disposition is exactly "ANSWERED" (source line 285). -/
def pathKey (number : String) (disposition : Option String) : String :=
  number ++ (if disposition = some "ANSWERED" then " (ANSWERED)" else "")

/-- `add_to_path` (source lines 280-299): append a candidate hop only if it
is non-empty, its base number differs from the last emitted hop's base
number, its exact key was not emitted before, and its base number differs
from the virtual-forward marker.  The `call_type` argument only feeds the
`call_path_details` metadata list, which `analyze_call` discards; the
metadata list is therefore not modelled. -/
def add_to_path (st : PathState) (number : String) (_call_type : String)
    (disposition : Option String) : PathState :=
  if number = "" then st
  else if base_number (st.path.getLast?.getD "") ≠ base_number (pathKey number disposition) ∧
      pathKey number disposition ∉ st.seen ∧
      base_number (pathKey number disposition) ≠ st.virtual_forward then
    { st with path := st.path ++ [pathKey number disposition]
              seen := pathKey number disposition :: st.seen }
  else st

/-- Value records of the `internal_calls` dictionary. -/
structure InternalCall where
  src : String
  dst : String
  time : Nat
  disposition : String
  deriving Repr, DecidableEq

/-- First-pass collections: `group_members` and `internal_calls`, both
insertion-ordered dictionaries.  The `external_calls` dictionary of the
source is initialised empty and never written, so it is not modelled. -/
structure GroupInfo where
  group_members : List (String × List String)
  internal_calls : List (String × InternalCall)
  deriving Repr, DecidableEq

/-- Ordered-dictionary lookup. -/
def lookupGM (gm : List (String × List String)) (k : String) : Option (List String) :=
  match gm with
  | [] => none
  | (k', v) :: rest => if k' = k then some v else lookupGM rest k

/-- Append a member to the list held at key `k` (key assumed present). -/
def appendGM (gm : List (String × List String)) (k m : String) :
    List (String × List String) :=
  match gm with
  | [] => []
  | (k', ms) :: rest =>
    if k' = k then (k', ms ++ [m]) :: rest else (k', ms) :: appendGM rest k m

/-- Python dict assignment `d[k] = v`: replace in place if the key exists
(keeping its original position), else append. -/
def upsertIC (d : List (String × InternalCall)) (k : String) (v : InternalCall) :
    List (String × InternalCall) :=
  match d with
  | [] => [(k, v)]
  | (k', v') :: rest =>
    if k' = k then (k', v) :: rest else (k', v') :: upsertIC rest k v

/-- One step of the first pass (source lines 302-325). -/
def collectStep (gi : GroupInfo) (e : CallEvent) : GroupInfo :=
  let src_number := resolvedSrc e
  let dst_number := pathResolvedDst e
  let gi1 :=
    if e.context = "ext-group" then
      let gm0 :=
        if (lookupGM gi.group_members e.dst).isNone then gi.group_members ++ [(e.dst, [])]
        else gi.group_members
      if dst_number ≠ "" ∧ dst_number ∉ ((lookupGM gm0 e.dst).getD []) then
        { gi with group_members := appendGM gm0 e.dst dst_number }
      else { gi with group_members := gm0 }
    else gi
  if e.context = "from-internal" then
    let call_id := src_number ++ "_" ++ dst_number ++ "_" ++ toString e.timestamp
    let rec_ : InternalCall :=
      { src := src_number, dst := dst_number, time := e.timestamp
        disposition := e.disposition }
    { gi1 with internal_calls := upsertIC gi1.internal_calls call_id rec_ }
  else gi1

/-- The whole first pass. -/
def collectInfo (events : List CallEvent) : GroupInfo :=
  events.foldl collectStep { group_members := [], internal_calls := [] }

/-- The `call_type` tag computed at source line 345 (recorded only in the
unmodelled metadata list). -/
def callTypeOf (e : CallEvent) : String :=
  if e.context = "ext-group" then "group_call"
  else if e.context = "from-internal" then "internal"
  else if e.context = "from-trunk" ∨ e.context = "outbound-allroutes" then "external"
  else "standard"

/-- Path seeding (source lines 337-341): when the path is still empty and
both resolved endpoints are non-empty, emit the source and, if the raw
destination differs from the resolved destination, the raw destination. -/
def seedPath (st : PathState) (e : CallEvent) : PathState :=
  if resolvedSrc e ≠ "" ∧ pathResolvedDst e ≠ "" ∧ st.path = [] then
    if e.dst ≠ pathResolvedDst e then
      add_to_path (add_to_path st (resolvedSrc e) "source" none)
        e.dst "initial_destination" none
    else add_to_path st (resolvedSrc e) "source" none
  else st

/-- Generic hop append (source lines 344-346). -/
def appendDst (st : PathState) (e : CallEvent) : PathState :=
  if resolvedSrc e ≠ "" ∧ pathResolvedDst e ≠ "" then
    add_to_path st (pathResolvedDst e) (callTypeOf e) (some e.disposition)
  else st

/-- Python `dstchannel.split(';')[0]`. -/
def localKey (s : String) : String :=
  String.mk (s.data.takeWhile (fun c => c != ';'))

/-- The context-dispatched if/elif chain of the second pass
(source lines 365-390). -/
def restBranches (gi : GroupInfo) (st : PathState) (e : CallEvent) : PathState :=
  if e.context = "from-internal" then
    if containsSub e.channel "Local/0" then
      if e.disposition = "ANSWERED" then
        { add_to_path { st with forwards_to := some (pathResolvedDst e) }
            (pathResolvedDst e) "forward_answered" (some e.disposition)
          with virtual_forward := pathResolvedDst e }
      else { st with virtual_forward := pathResolvedDst e }
    else if containsSub e.channel "Local/" && !(containsSub e.dstchannel "Local/") then
      if !(optTruthy st.transfers_to) ∧ pathResolvedDst e ≠ "" then
        add_to_path { st with transfers_to := some (pathResolvedDst e) }
          (pathResolvedDst e) "transfer_internal" (some e.disposition)
      else st
    else st
  else if e.context = "ext-local" ∧ e.dst ≠ pathResolvedDst e then
    if !(optTruthy st.transfers_to) then
      add_to_path { st with transfers_to := some (pathResolvedDst e) }
        (pathResolvedDst e) "transfer_external" (some e.disposition)
    else st
  else if e.context = "ext-group" then
    match lookupGM gi.group_members e.dst with
    | some members =>
      if pathResolvedDst e ∈ members then
        if e.disposition = "ANSWERED" then
          add_to_path st (pathResolvedDst e) "group_answered" (some e.disposition)
        else st
      else st
    | none => st
  else st

/-- One step of the second (main) pass: seeding, generic append, then the
followme-check branch (source lines 349-362, whose `continue` skips the
if/elif chain) or the if/elif chain. -/
def mainStep (events : List CallEvent) (gi : GroupInfo) (st : PathState)
    (e : CallEvent) : PathState :=
  if e.context = "followme-check" ∧ containsSub e.dstchannel "Local/" = true ∧
      e.disposition = "ANSWERED" then
    match events.find? (fun m =>
        m.channel ≠ "" && startsWithStr m.channel (localKey e.dstchannel) &&
        m.context == "from-internal") with
    | some m =>
      { add_to_path
          { appendDst (seedPath st e) e with forwards_to := some (statusResolvedDst m) }
          (statusResolvedDst m) "forwarded" (some m.disposition)
        with virtual_forward := statusResolvedDst m }
    | none => restBranches gi (appendDst (seedPath st e) e) e
  else restBranches gi (appendDst (seedPath st e) e) e

/-- One step of the final missed-internal-calls pass
(source lines 395-399). -/
def missedStep (st : PathState) (kv : String × InternalCall) : PathState :=
  if kv.2.disposition = "NO ANSWER" ∧ kv.2.dst ∉ st.seen then
    if base_number (st.path.getLast?.getD "") ≠ base_number kv.2.dst then
      add_to_path st kv.2.dst "missed_internal" (some "NO ANSWER")
    else st
  else st

/-- `_identify_actions_by_context`: the two passes over the legs followed
by the missed-internal pass.  The missed-external pass of the source
iterates the never-populated `external_calls` dictionary and is a no-op. -/
def identify_actions_by_context (events : List CallEvent) : PathState :=
  let gi := collectInfo events
  let st1 := events.foldl (mainStep events gi) initPathState
  gi.internal_calls.foldl missedStep st1

/-- `" --> ".join(path)`. -/
def call_path (st : PathState) : String :=
  String.intercalate " --> " st.path

/-! ## Call builder (`analyze_call`) -/

/-- Stable insertion of a leg into a sequence-sorted list: the new leg is
placed after every already-present leg with a smaller-or-equal sequence
number when combined with `List.foldr`, reproducing Python's stable
`sorted(events, key=lambda e: e.sequence)`. -/
def insertBySeq (e : CallEvent) : List CallEvent → List CallEvent
  | [] => [e]
  | x :: xs => if e.sequence ≤ x.sequence then e :: x :: xs else x :: insertBySeq e xs

/-- Stable sort by sequence number. -/
def sortBySequence (events : List CallEvent) : List CallEvent :=
  events.foldr insertBySeq []

/-- The click-to-call Call record built at source lines 432-451. -/
def buildCTCCall (cfg : AnalyzerConfig) (events : List CallEvent)
    (first : CallEvent) (r : ClickToCall) : Call :=
  let src := r.src.getD ""
  let dst := r.dst.getD ""
  let is_int := is_internal_number cfg src && is_internal_number cfg dst
  { start_time := first.timestamp
    uniqueid := first.linkedid
    source := src
    destination := dst
    duration := r.duration
    status := get_call_status cfg events
    type := get_call_direction cfg events is_int
    is_internal := is_int
    transfers_from := none
    transfers_to := none
    forwards_from := none
    forwards_to := none
    is_click_to_call := true
    final_path := String.intercalate " --> " ([src] ++ r.forward ++ [dst])
    original_caller_name := first.cnam
    did := first.did
    accountcode := first.accountcode
    userfield := first.userfield }

/-- The standard Call record built at source lines 463-482. -/
def buildStandardCall (cfg : AnalyzerConfig) (events : List CallEvent)
    (first : CallEvent) : Call :=
  let st := identify_actions_by_context events
  let is_int := is_internal_number cfg first.src && is_internal_number cfg first.dst
  { start_time := first.timestamp
    uniqueid := first.linkedid
    source := first.src
    destination := first.dst
    duration := get_call_billsec cfg events
    status := get_call_status cfg events
    type := get_call_direction cfg events is_int
    is_internal := is_int
    transfers_from := st.transfers_from
    transfers_to := st.transfers_to
    forwards_from := st.forwards_from
    forwards_to := st.forwards_to
    final_path := call_path st
    is_click_to_call := false
    original_caller_name := first.cnam
    did := first.did
    accountcode := first.accountcode
    userfield := first.userfield }

/-- The body of `analyze_call` after the sequence sort: the click-to-call
short-circuit builds a Call when the marker holds and both its resolved
endpoints are truthy (source line 431); otherwise a first leg with an
empty raw source or destination rejects the group (line 456) and any
other group builds the standard Call. -/
def analyze_sorted (cfg : AnalyzerConfig) : List CallEvent → Option Call
  | [] => none
  | first :: rest =>
    if (identify_click_to_call (first :: rest)).is_click_to_call &&
        optTruthy (identify_click_to_call (first :: rest)).src &&
        optTruthy (identify_click_to_call (first :: rest)).dst then
      some (buildCTCCall cfg (first :: rest) first (identify_click_to_call (first :: rest)))
    else if first.src = "" ∨ first.dst = "" then none
    else some (buildStandardCall cfg (first :: rest) first)

/-- `analyze_call`: empty groups are rejected, other groups are sorted by
sequence and dispatched to `analyze_sorted`. -/
def analyze_call (cfg : AnalyzerConfig) (events0 : List CallEvent) : Option Call :=
  if events0 = [] then none
  else analyze_sorted cfg (sortBySequence events0)

/-- The compound truthiness test of the click-to-call branch of
`analyze_call` (source line 431):
`is_click_to_call and src_ctc and dst_ctc`. -/
def ctcBuilt (events : List CallEvent) : Bool :=
  (identify_click_to_call events).is_click_to_call &&
    optTruthy (identify_click_to_call events).src &&
    optTruthy (identify_click_to_call events).dst

/-! ## Spec-side definitions (used only to state claims) -/

/-- Strip one trailing " (ANSWERED)" suffix, the reading used by the
path-de-duplication claim ("ignoring the (ANSWERED) suffix"). -/
def stripAnswered (s : String) : String :=
  if (" (ANSWERED)").data.isSuffixOf s.data then
    String.mk (s.data.take (s.data.length - (" (ANSWERED)").data.length))
  else s

/-- The general-mode status stated by the spec: fixed priority
ANSWERED > BUSY > CONGESTION > NO ANSWER > FAILED over the multiset of
dispositions (only membership matters). -/
def statusOfDispositions (ds : List String) : String :=
  if ds.contains "ANSWERED" then "ANSWERED"
  else if ds.contains "BUSY" then "BUSY"
  else if ds.contains "CONGESTION" then "CONGESTION"
  else if ds.contains "NO ANSWER" then "NO ANSWER"
  else "FAILED"

/-- The canonical dial leg of the amended click-to-call claim: the first
leg whose routing context contains "macro-dial", else the first leg. -/
def dialLegSpec (events : List CallEvent) (first : CallEvent) : CallEvent :=
  (events.find? (fun e => containsSub e.context "macro-dial")).getD first

/-- Invariant of the path accumulator: consecutive emitted hops have
distinct base numbers. -/
def pathBaseInv (st : PathState) : Prop :=
  List.Chain' (fun a b => base_number a ≠ base_number b) st.path

/-! ## Concrete instances for witnesses and counterexamples -/

/-- General-mode configuration (no reference numbers). -/
def cfgGen : AnalyzerConfig := { internal_numbers := ["101"], reference_numbers := none }

/-- Default-policy duration witness legs. -/
def evW2a : CallEvent :=
  { timestamp := 1, linkedid := "W2", src := "0033199998888", dst := "101"
    channel := "DAHDI/i1-1", dstchannel := "PJSIP/101-0001", disposition := "NO ANSWER"
    billsec := 3, sequence := 1, context := "from-trunk" }

def evW2b : CallEvent :=
  { timestamp := 2, linkedid := "W2", src := "0033199998888", dst := "102"
    channel := "DAHDI/i1-1", dstchannel := "PJSIP/102-0001", disposition := "ANSWERED"
    billsec := 4, sequence := 2, context := "from-trunk" }

/-- General-mode status witness legs: one BUSY, one ANSWERED. -/
def evW3a : CallEvent :=
  { timestamp := 1, linkedid := "W3", src := "201", dst := "202"
    channel := "PJSIP/201-1", dstchannel := "PJSIP/202-1", disposition := "BUSY"
    billsec := 0, sequence := 1, context := "from-internal-x" }

def evW3b : CallEvent :=
  { timestamp := 2, linkedid := "W3", src := "201", dst := "203"
    channel := "PJSIP/201-2", dstchannel := "PJSIP/203-1", disposition := "ANSWERED"
    billsec := 9, sequence := 2, context := "from-internal-x" }

/-- Single-reference configuration with reference number "100". -/
def cfgRef100 : AnalyzerConfig :=
  { internal_numbers := [], reference_numbers := some ["100"] }

/-- Single-reference duration witness legs: only the first involves the
reference number. -/
def evW5a : CallEvent :=
  { timestamp := 1, linkedid := "W5", src := "100", dst := "0611223344"
    channel := "x1", dstchannel := "y1", disposition := "ANSWERED"
    billsec := 5, sequence := 1, context := "outbound-allroutes" }

def evW5b : CallEvent :=
  { timestamp := 2, linkedid := "W5", src := "333", dst := "444"
    channel := "x2", dstchannel := "y2", disposition := "ANSWERED"
    billsec := 7, sequence := 2, context := "outbound-allroutes" }

/-- Single-reference status witness leg: matches the reference number with
disposition BUSY. -/
def evW6 : CallEvent :=
  { timestamp := 1, linkedid := "W6", src := "100", dst := "0655555555"
    channel := "q1", dstchannel := "q2", disposition := "BUSY"
    billsec := 0, sequence := 1, context := "outbound-allroutes" }

/-- Counterexample leg for the single-reference forward status claim: a
forward leg whose disposition "UNANSWERED" merely CONTAINS the substring
"ANSWERED". -/
def evC6 : CallEvent :=
  { timestamp := 1, linkedid := "X6", src := "0601", dst := "103"
    channel := "Local/0103@from-internal-x;2", dstchannel := "PJSIP/103-1"
    disposition := "UNANSWERED", billsec := 0, sequence := 1, context := "from-internal" }

/-- Single-reference configuration used by the status counterexample. -/
def cfgC6 : AnalyzerConfig := { internal_numbers := [], reference_numbers := some ["101"] }

/-- Scenario D, first leg: click-to-call marker in the caller name, raw
source "0601020304" (starts with "0"). -/
def evD1 : CallEvent :=
  { timestamp := 1, linkedid := "D", src := "0601020304", dst := "0699887766"
    channel := "PJSIP/0601020304-1", dstchannel := "", disposition := "ANSWERED"
    billsec := 5, sequence := 1, context := "from-internal"
    cnam := some "Répondre pour appeler le 0699887766" }

/-- Scenario D, second leg: context contains "macro-dial", source "101". -/
def evD2 : CallEvent :=
  { timestamp := 2, linkedid := "D", src := "101", dst := "0699887766"
    channel := "PJSIP/101-2", dstchannel := "PJSIP/i2-3", disposition := "ANSWERED"
    billsec := 60, sequence := 2, context := "macro-dialout-trunk" }

/-- Click-to-call counterexample, first leg: marker in caller name, raw
source starting with "0", channel matching no decoder pattern. -/
def evC7a : CallEvent :=
  { timestamp := 1, linkedid := "Y", src := "0600000001", dst := "0777"
    channel := "nochannel", dstchannel := "", disposition := "ANSWERED"
    billsec := 3, sequence := 1, context := "from-internal"
    cnam := some "Répondre pour appeler le 0777" }

/-- Click-to-call counterexample, second leg: its raw DESTINATION CHANNEL
contains "macro-dial" but its context does not. -/
def evC7b : CallEvent :=
  { timestamp := 2, linkedid := "Y", src := "202", dst := "0777"
    channel := "PJSIP/202-1", dstchannel := "Local/5@macro-dial-x;1"
    disposition := "ANSWERED", billsec := 9, sequence := 2, context := "from-internal-xfer" }

/-- Simple standard-mode leg used by the forwards-from witness. -/
def evW9 : CallEvent :=
  { timestamp := 1, linkedid := "W9", src := "301", dst := "302"
    channel := "PJSIP/301-1", dstchannel := "PJSIP/302-1", disposition := "ANSWERED"
    billsec := 12, sequence := 1, context := "from-internal-w" }

/-- The Call that `analyze_call cfgGen [evW9]` builds. -/
def callW9 : Call := buildStandardCall cfgGen [evW9] evW9

/-- Simple leg used by the non-negative duration witness. -/
def evW10 : CallEvent :=
  { timestamp := 1, linkedid := "W10", src := "401", dst := "402"
    channel := "PJSIP/401-1", dstchannel := "PJSIP/402-1", disposition := "ANSWERED"
    billsec := 11, sequence := 1, context := "from-internal-w" }

/-- The Call that `analyze_call cfgGen [evW10]` builds. -/
def callW10 : Call := buildStandardCall cfgGen [evW10] evW10

/-! # Helper lemmas -/

theorem foldl_billsec_filter (p : CallEvent → Bool) (l : List CallEvent) (a : Int) :
    l.foldl (fun acc e => if p e then acc + e.billsec else acc) a
      = a + ((l.filter p).map (fun e => e.billsec)).sum := by
  induction l generalizing a with
  | nil => simp
  | cons e rest ih =>
    by_cases h : p e
    · simp [List.filter_cons, h, ih, add_assoc]
    · simp [List.filter_cons, h, ih]

theorem any_disposition_eq (events : List CallEvent) (d : String) :
    events.any (fun e => e.disposition == d)
      = (events.map (fun e => e.disposition)).contains d := by
  induction events with
  | nil => rfl
  | cons e rest ih =>
    simp only [List.any_cons, List.map_cons, List.contains_cons, ih]
    by_cases h : e.disposition = d
    · simp [h]
    · have hb1 : (e.disposition == d) = false := by
        exact beq_eq_false_iff_ne.mpr h
      have hb2 : (d == e.disposition) = false := by
        exact beq_eq_false_iff_ne.mpr (Ne.symm h)
      rw [hb1, hb2]

/-! # C2: default-policy duration is the exact sum of billsec -/

/-- C2.  For every leg list under the default duration policy (no single
configured reference number, no leg satisfying the forward predicate, no
leg satisfying the group-call predicate), the computed duration is the
exact integer sum of all legs' billsec, and the empty leg list yields 0. -/
theorem default_policy_duration_is_sum (cfg : AnalyzerConfig) (events : List CallEvent) :
    get_call_billsec cfg [] = 0 ∧
    (singleRefMode cfg = false → check_if_forward events = false →
      check_if_group_call events = false →
      get_call_billsec cfg events = (events.map (fun e => e.billsec)).sum) := by
  refine ⟨by simp [get_call_billsec], ?_⟩
  intro h1 h2 h3
  by_cases he : events = []
  · subst he; simp [get_call_billsec]
  · simp [get_call_billsec, he, h1, h2, h3]

/-- Witness for C2 at a concrete general-mode two-leg group. -/
theorem default_policy_duration_is_sum_witness :
    get_call_billsec cfgGen [evW2a, evW2b] = 7 :=
  ((default_policy_duration_is_sum cfgGen [evW2a, evW2b]).2
    (by decide) (by decide) (by decide)).trans (by decide)

/-! # C3: general-mode status priority is order-independent -/

/-- C3.  In general mode (no single configured reference number) the
resolved status is a function of the set of leg dispositions only, with
fixed priority ANSWERED > BUSY > CONGESTION > NO ANSWER > FAILED; any two
leg lists whose disposition multisets have the same members resolve to
the same status, so a disposition value outside the five named ones never
determines the result. -/
theorem general_status_priority (cfg : AnalyzerConfig) (events : List CallEvent)
    (h : singleRefMode cfg = false) :
    get_call_status cfg events
        = statusOfDispositions (events.map (fun e => e.disposition)) ∧
    (∀ events' : List CallEvent,
      (∀ d : String, (events.map (fun e => e.disposition)).contains d
          = (events'.map (fun e => e.disposition)).contains d) →
      get_call_status cfg events = get_call_status cfg events') := by
  have main : ∀ evs : List CallEvent,
      get_call_status cfg evs = statusOfDispositions (evs.map (fun e => e.disposition)) := by
    intro evs
    simp only [get_call_status, h, Bool.false_eq_true, if_false, statusOfDispositions,
      any_disposition_eq]
  refine ⟨main events, fun events' hsame => ?_⟩
  rw [main events, main events']
  simp only [statusOfDispositions, hsame]

/-- Witness for C3 at a concrete BUSY + ANSWERED group. -/
theorem general_status_priority_witness :
    get_call_status cfgGen [evW3a, evW3b] = "ANSWERED" :=
  ((general_status_priority cfgGen [evW3a, evW3b] (by decide)).1).trans (by decide)

/-! # C5: single-reference duration -/

/-- C5.  With exactly one configured reference number `r`: when the leg
list satisfies both the forward and group-call predicates the duration is
the sum of all legs' billsec; otherwise it is the sum of billsec over
exactly those legs whose resolved source or resolved destination equals
`r`, where the resolved destination of a leg whose destination channel
contains "Local/0" is the raw `dst` field (`billsecResolvedDst`). -/
theorem single_ref_duration (cfg : AnalyzerConfig) (r : String)
    (h : cfg.reference_numbers = some [r]) (events : List CallEvent) :
    (check_if_forward events = true → check_if_group_call events = true →
      get_call_billsec cfg events = (events.map (fun e => e.billsec)).sum) ∧
    ((check_if_forward events && check_if_group_call events) = false →
      get_call_billsec cfg events =
        ((events.filter (fun e => resolvedSrc e == r || billsecResolvedDst e == r)).map
          (fun e => e.billsec)).sum) := by
  have hs : singleRefMode cfg = true := by simp [singleRefMode, h]
  have hb : ∀ a : String, (a == r) = decide (a = r) := by
    intro a
    by_cases hd : a = r
    · simp [hd]
    · simp [hd, beq_eq_false_iff_ne.mpr hd]
  have hmatch : ∀ e, billsecMatches (refList cfg) e
      = (resolvedSrc e == r || billsecResolvedDst e == r) := by
    intro e
    simp [billsecMatches, refList, h, List.contains_cons, hb]
  constructor
  · intro h1 h2
    have hne : events ≠ [] := by
      intro hnil
      rw [hnil] at h1
      exact absurd h1 (by simp [check_if_forward])
    simp [get_call_billsec, hne, hs, h1, h2]
  · intro h12
    by_cases he : events = []
    · subst he
      simp [get_call_billsec]
    · have hfold := foldl_billsec_filter (fun e => billsecMatches (refList cfg) e) events 0
      simp only [get_call_billsec, he, hs, h12, if_neg, if_true, ite_false, ite_true,
        Bool.false_eq_true, if_false, hfold, zero_add]
      rw [List.filter_congr (fun e _ => hmatch e)]

/-- Witness for C5 at a concrete single-reference two-leg group where
only the first leg involves the reference number. -/
theorem single_ref_duration_witness :
    get_call_billsec cfgRef100 [evW5a, evW5b] = 5 :=
  ((single_ref_duration cfgRef100 "100" (by rfl) [evW5a, evW5b]).2
    (by decide)).trans (by decide)

/-! # C6: single-reference status -/

theorem status_scan_characterization (refs : List String) (events : List CallEvent)
    (s : String) :
    status_scan refs events s =
      if (events.filter (statusMatches refs)).any (fun e => e.disposition == "ANSWERED")
      then "ANSWERED"
      else (((events.filter (statusMatches refs)).getLast?).map
        (fun e => e.disposition)).getD s := by
  induction events generalizing s with
  | nil => simp [status_scan]
  | cons e rest ih =>
    by_cases hm : statusMatches refs e
    · by_cases hd : e.disposition = "ANSWERED"
      · simp [status_scan, hm, hd, List.filter_cons]
      · have hbd : (e.disposition == "ANSWERED") = false := beq_eq_false_iff_ne.mpr hd
        rw [status_scan, if_pos hm, if_neg hd, ih]
        rcases hfr : rest.filter (statusMatches refs) with _ | ⟨x, xs⟩
        · simp [List.filter_cons, hm, hfr, hbd]
        · obtain ⟨y, hy⟩ : ∃ y, (x :: xs).getLast? = some y :=
            ⟨(x :: xs).getLast (by simp), List.getLast?_eq_getLast _ (by simp)⟩
          simp [List.filter_cons, hm, hfr, hbd, hy]
    · rw [status_scan, if_neg hm, ih]
      simp [List.filter_cons, hm]

/-- Counterexample to C6 as stated: with a single reference number and a
forward leg whose disposition is "UNANSWERED", no leg's disposition
EQUALS "ANSWERED", yet the resolved status is "ANSWERED", because the
source tests `'ANSWERED' in e.disposition` — substring containment, not
equality (source line 139). -/
theorem single_ref_forward_status_counterexample :
    singleRefMode cfgC6 = true ∧
    check_if_forward [evC6] = true ∧
    (∀ e ∈ [evC6], e.disposition ≠ "ANSWERED") ∧
    get_call_status cfgC6 [evC6] = "ANSWERED" := by
  refine ⟨by decide, by decide, by decide, by decide⟩

/-- C6 amended.  With exactly one configured reference number: when the
forward predicate holds the status is "ANSWERED" iff some leg's
disposition CONTAINS "ANSWERED" as a substring, else "NO ANSWER"; when it
does not hold, the legs are scanned in order and the result is "ANSWERED"
as soon as some matching leg (resolved source or destination equal to the
reference number) has disposition "ANSWERED", else the last matching
leg's disposition, else the initial "NO ANSWER". -/
theorem single_ref_status_characterization (cfg : AnalyzerConfig)
    (h : singleRefMode cfg = true) (events : List CallEvent) :
    (check_if_forward events = true →
      get_call_status cfg events =
        (if events.any (fun e => containsSub e.disposition "ANSWERED")
         then "ANSWERED" else "NO ANSWER")) ∧
    (check_if_forward events = false →
      get_call_status cfg events =
        (if (events.filter (statusMatches (refList cfg))).any
              (fun e => e.disposition == "ANSWERED")
         then "ANSWERED"
         else (((events.filter (statusMatches (refList cfg))).getLast?).map
           (fun e => e.disposition)).getD "NO ANSWER")) := by
  constructor
  · intro hf
    simp [get_call_status, h, hf]
  · intro hf
    rw [get_call_status]
    simp only [h, if_true, hf, Bool.false_eq_true, if_false]
    exact status_scan_characterization (refList cfg) events "NO ANSWER"

/-- Witness for the amended C6 at a concrete non-forwarded group whose
only matching leg has disposition BUSY. -/
theorem single_ref_status_characterization_witness :
    get_call_status cfgRef100 [evW6] = "BUSY" :=
  ((single_ref_status_characterization cfgRef100 (by decide) [evW6]).2
    (by decide)).trans (by decide)

/-! # C4: channel decoder -/

/-- Counterexample to C4 as stated: on "Local/99@SIP/11-" the decoder
captures "99" (Local pattern, tried before SIP in the source) and
`lstrip('9')` removes BOTH leading '9's, returning the empty string —
not "9" (one '9' removed from the Local capture) and not "11" (the
capture the claim's PJSIP/SIP/IAX2-before-Local ordering would select). -/
theorem extract_single_strip_counterexample :
    channelRawCapture "Local/99@SIP/11-" = some ['9', '9'] ∧
    extract_number_from_channel "Local/99@SIP/11-" = some "" ∧
    ("" : String) ≠ "9" ∧ ("" : String) ≠ "11" := by
  refine ⟨by decide, by decide, by decide, by decide⟩

/-- C4 amended.  For every channel string the decoder returns exactly the
raw capture of the first matching pattern — PJSIP digits-dash, Local
id-at, SIP digits-dash, IAX2 digits-dash, tried in that order — with ALL
leading literal '9' characters removed; when no pattern matches, or the
string is empty, it returns nothing. -/
theorem extract_strips_all_nines (channel : String) :
    extract_number_from_channel channel
      = (channelRawCapture channel).map
          (fun v => String.mk (v.dropWhile (fun c => c == '9'))) ∧
    extract_number_from_channel "" = none := by
  refine ⟨?_, by decide⟩
  by_cases hc : channel = ""
  · subst hc; decide
  · simp only [extract_number_from_channel, channelRawCapture, if_neg hc]
    rcases h1 : searchCapture "PJSIP/".data matchDigitsDash channel.data with _ | v1
    · rcases h2 : searchCapture "Local/".data matchLocalBody channel.data with _ | v2
      · rcases h3 : searchCapture "SIP/".data matchDigitsDash channel.data with _ | v3
        · rcases h4 : searchCapture "IAX2/".data matchDigitsDash channel.data with _ | v4
          · simp [h1, h2, h3, h4]
          · simp [h1, h2, h3, h4, lstrip9]
        · simp [h1, h2, h3, lstrip9]
      · simp [h1, h2, lstrip9]
    · simp [h1, lstrip9]

/-! # C7: click-to-call source selection -/

/-- Counterexample to C7 as stated: in a click-to-call group whose second
leg's raw DESTINATION CHANNEL contains "macro-dial" (src "202") while no
leg's CONTEXT contains it, and whose first resolved source starts with
"0", the source selects the first leg as dial leg (source line 228 tests
`'macro-dial' in e.context`) and resolves the source to the first leg's
raw src "0600000001" — not "202" as the claim's dial-leg rule predicts. -/
theorem click_to_call_dial_leg_counterexample :
    containsSub evC7b.dstchannel "macro-dial" = true ∧
    (∀ e ∈ [evC7a, evC7b], containsSub e.context "macro-dial" = false) ∧
    startsWithStr (resolvedSrc evC7a) "0" = true ∧
    (identify_click_to_call [evC7a, evC7b]).is_click_to_call = true ∧
    (identify_click_to_call [evC7a, evC7b]).src = some "0600000001" ∧
    evC7b.src = "202" ∧
    some ("0600000001" : String) ≠ some "202" := by
  refine ⟨by decide, by decide, by decide, by decide, by decide, by decide, by decide⟩

/-- C7 amended.  In the click-to-call short-circuit the canonical dial
leg is the first leg whose CONTEXT contains "macro-dial" if one exists,
else the first leg; the resulting source is the dial leg's raw src when
the first leg's resolved source starts with "0" or "+", else the first
leg's resolved source.  In Scenario D (first-leg source "0601020304",
later leg with context containing "macro-dial" and source "101") the
resolved source is "101" and the click-to-call flag is true. -/
theorem click_to_call_source_selection (events : List CallEvent)
    (first : CallEvent) (rest : List CallEvent)
    (hev : events = first :: rest)
    (hctc : is_click_to_call_marker events = true) :
    (identify_click_to_call events).src =
      some (if startsWithStr (resolvedSrc first) "0" ||
              startsWithStr (resolvedSrc first) "+"
            then (dialLegSpec events first).src
            else resolvedSrc first) ∧
    (identify_click_to_call events).is_click_to_call = true ∧
    (identify_click_to_call [evD1, evD2]).src = some "101" ∧
    (identify_click_to_call [evD1, evD2]).is_click_to_call = true := by
  subst hev
  refine ⟨?_, ?_, by decide, by decide⟩
  · simp [identify_click_to_call, hctc, dialLegSpec]
  · simp [identify_click_to_call, hctc]

/-- Witness for the amended C7 at the Scenario D legs. -/
theorem click_to_call_source_selection_witness :
    (identify_click_to_call [evD1, evD2]).src = some "101" :=
  ((click_to_call_source_selection [evD1, evD2] evD1 [evD2] rfl (by decide)).1).trans
    (by decide)

/-! # C8: path de-duplication -/

theorem add_to_path_path_cases (st : PathState) (n t : String) (d : Option String) :
    add_to_path st n t d = st ∨
    ((add_to_path st n t d).path = st.path ++ [pathKey n d] ∧
      base_number (pathKey n d) ≠ base_number (st.path.getLast?.getD "") ∧
      pathKey n d ∉ st.seen ∧
      base_number (pathKey n d) ≠ st.virtual_forward) := by
  unfold add_to_path
  split
  · exact Or.inl rfl
  · split
    · next hc => exact Or.inr ⟨rfl, Ne.symm hc.1, hc.2.1, hc.2.2⟩
    · exact Or.inl rfl

theorem add_to_path_inv {st : PathState} (n t : String) (d : Option String)
    (h : pathBaseInv st) : pathBaseInv (add_to_path st n t d) := by
  rcases add_to_path_path_cases st n t d with he | ⟨hp, h1, _, _⟩
  · rw [he]; exact h
  · unfold pathBaseInv at h ⊢
    rw [hp, List.chain'_append]
    refine ⟨h, List.chain'_singleton _, ?_⟩
    intro x hx y hy
    simp only [List.head?_cons, Option.mem_def, Option.some.injEq] at hy
    subst hy
    rw [Option.mem_def] at hx
    intro hEq
    apply h1
    rw [hx, Option.getD_some]
    exact hEq.symm

theorem seedPath_inv (st : PathState) (e : CallEvent) (h : pathBaseInv st) :
    pathBaseInv (seedPath st e) := by
  unfold seedPath
  split
  · split
    · exact add_to_path_inv _ _ _ (add_to_path_inv _ _ _ h)
    · exact add_to_path_inv _ _ _ h
  · exact h

theorem appendDst_inv (st : PathState) (e : CallEvent) (h : pathBaseInv st) :
    pathBaseInv (appendDst st e) := by
  unfold appendDst
  split
  · exact add_to_path_inv _ _ _ h
  · exact h

theorem restBranches_inv (gi : GroupInfo) (st : PathState) (e : CallEvent)
    (h : pathBaseInv st) : pathBaseInv (restBranches gi st e) := by
  unfold restBranches
  repeat' split
  all_goals first
    | exact add_to_path_inv _ _ _ h
    | exact h

theorem mainStep_inv (events : List CallEvent) (gi : GroupInfo) (st : PathState)
    (e : CallEvent) (h : pathBaseInv st) : pathBaseInv (mainStep events gi st e) := by
  unfold mainStep
  split
  · split
    · exact add_to_path_inv _ _ _ (appendDst_inv _ _ (seedPath_inv _ _ h))
    · exact restBranches_inv _ _ _ (appendDst_inv _ _ (seedPath_inv _ _ h))
  · exact restBranches_inv _ _ _ (appendDst_inv _ _ (seedPath_inv _ _ h))

theorem missedStep_inv (st : PathState) (kv : String × InternalCall)
    (h : pathBaseInv st) : pathBaseInv (missedStep st kv) := by
  unfold missedStep
  repeat' split
  all_goals first
    | exact add_to_path_inv _ _ _ h
    | exact h

theorem foldl_mainStep_inv (all : List CallEvent) (gi : GroupInfo)
    (events : List CallEvent) (st : PathState) (h : pathBaseInv st) :
    pathBaseInv (events.foldl (mainStep all gi) st) := by
  induction events generalizing st with
  | nil => exact h
  | cons e rest ih => exact ih _ (mainStep_inv all gi st e h)

theorem foldl_missedStep_inv (d : List (String × InternalCall)) (st : PathState)
    (h : pathBaseInv st) : pathBaseInv (d.foldl missedStep st) := by
  induction d generalizing st with
  | nil => exact h
  | cons kv rest ih => exact ih _ (missedStep_inv st kv h)

theorem identify_actions_pathBaseInv (events : List CallEvent) :
    pathBaseInv (identify_actions_by_context events) := by
  unfold identify_actions_by_context
  exact foldl_missedStep_inv _ _ (foldl_mainStep_inv _ _ _ _ List.chain'_nil)

theorem takeWhile_append_space (t r : List Char) :
    (t ++ ' ' :: r).takeWhile (fun c => c != ' ') = t.takeWhile (fun c => c != ' ') := by
  induction t with
  | nil => simp [List.takeWhile_cons]
  | cons c t' ih =>
    by_cases hc : c = ' '
    · subst hc; simp [List.takeWhile_cons]
    · have hb : (c != ' ') = true := by simp [hc]
      simp [List.takeWhile_cons, hb, ih]

theorem base_number_stripAnswered (s : String) :
    base_number (stripAnswered s) = base_number s := by
  unfold stripAnswered
  split
  · next hsfx =>
    obtain ⟨t, ht⟩ := List.isSuffixOf_iff_suffix.mp hsfx
    unfold base_number
    congr 1
    have hlen : s.data.length - (" (ANSWERED)").data.length = t.length := by
      rw [← ht]; simp
    rw [hlen, ← ht, List.take_left]
    have hsp : (" (ANSWERED)").data = ' ' :: ("(ANSWERED)").data := rfl
    rw [hsp, takeWhile_append_space]
  · rfl

/-- C8.  In the path produced by the path reconstructor no two
consecutive hops are identical, whether compared by base number (prefix
before the first space, the source's `base_number`) or after ignoring an
" (ANSWERED)" suffix; and `add_to_path` appends a candidate hop only if
its base number differs from the last emitted hop's, its exact key has
not been emitted before, and its base number differs from the current
virtual-forward marker — otherwise it leaves the state unchanged. -/
theorem path_consecutive_hops_distinct (events : List CallEvent) :
    List.Chain' (fun a b => base_number a ≠ base_number b)
      (identify_actions_by_context events).path ∧
    List.Chain' (fun a b => stripAnswered a ≠ stripAnswered b)
      (identify_actions_by_context events).path ∧
    (∀ (st : PathState) (n t : String) (d : Option String),
      add_to_path st n t d = st ∨
      ((add_to_path st n t d).path = st.path ++ [pathKey n d] ∧
        base_number (pathKey n d) ≠ base_number (st.path.getLast?.getD "") ∧
        pathKey n d ∉ st.seen ∧
        base_number (pathKey n d) ≠ st.virtual_forward)) := by
  have hbase := identify_actions_pathBaseInv events
  refine ⟨hbase, ?_, fun st n t d => add_to_path_path_cases st n t d⟩
  refine hbase.imp (fun a b hne hstrip => hne ?_)
  rw [← base_number_stripAnswered a, ← base_number_stripAnswered b, hstrip]

/-! # C9: forwards_from is never assigned in standard mode -/

theorem add_to_path_forwards_from (st : PathState) (n t : String) (d : Option String) :
    (add_to_path st n t d).forwards_from = st.forwards_from := by
  unfold add_to_path
  repeat' split
  all_goals rfl

theorem seedPath_forwards_from (st : PathState) (e : CallEvent) :
    (seedPath st e).forwards_from = st.forwards_from := by
  unfold seedPath
  repeat' split
  all_goals simp [add_to_path_forwards_from]

theorem appendDst_forwards_from (st : PathState) (e : CallEvent) :
    (appendDst st e).forwards_from = st.forwards_from := by
  unfold appendDst
  repeat' split
  all_goals simp [add_to_path_forwards_from]

theorem restBranches_forwards_from (gi : GroupInfo) (st : PathState) (e : CallEvent) :
    (restBranches gi st e).forwards_from = st.forwards_from := by
  unfold restBranches
  repeat' split
  all_goals simp [add_to_path_forwards_from]

theorem mainStep_forwards_from (events : List CallEvent) (gi : GroupInfo)
    (st : PathState) (e : CallEvent) :
    (mainStep events gi st e).forwards_from = st.forwards_from := by
  unfold mainStep
  repeat' split
  all_goals simp [add_to_path_forwards_from, restBranches_forwards_from,
    appendDst_forwards_from, seedPath_forwards_from]

theorem missedStep_forwards_from (st : PathState) (kv : String × InternalCall) :
    (missedStep st kv).forwards_from = st.forwards_from := by
  unfold missedStep
  repeat' split
  all_goals simp [add_to_path_forwards_from]

theorem identify_actions_forwards_from (events : List CallEvent) :
    (identify_actions_by_context events).forwards_from = none := by
  unfold identify_actions_by_context
  have h1 : ∀ (all : List CallEvent) (gi : GroupInfo) (evs : List CallEvent)
      (st : PathState),
      (evs.foldl (mainStep all gi) st).forwards_from = st.forwards_from := by
    intro all gi evs
    induction evs with
    | nil => intro st; rfl
    | cons e rest ih =>
      intro st
      rw [List.foldl_cons, ih, mainStep_forwards_from]
  have h2 : ∀ (d : List (String × InternalCall)) (st : PathState),
      (d.foldl missedStep st).forwards_from = st.forwards_from := by
    intro d
    induction d with
    | nil => intro st; rfl
    | cons kv rest ih =>
      intro st
      rw [List.foldl_cons, ih, missedStep_forwards_from]
  rw [h2, h1]
  rfl

/-- C9.  Every Call produced in standard (non-click-to-call) mode has an
absent `forwards_from`: the path-reconstruction pass assigns only
forward-to and transfer-to, never forward-from, whatever the legs
contain. -/
theorem standard_call_forwards_from_none (cfg : AnalyzerConfig)
    (events : List CallEvent) (c : Call)
    (h : analyze_call cfg events = some c)
    (hstd : c.is_click_to_call = false) : c.forwards_from = none := by
  unfold analyze_call at h
  split at h
  · exact absurd h (by simp)
  · rcases hsort : sortBySequence events with _ | ⟨first, rest⟩
    · rw [hsort] at h
      exact absurd h (by simp [analyze_sorted])
    · rw [hsort] at h
      rw [analyze_sorted] at h
      split at h
      · injection h with h'
        subst h'
        exact absurd hstd (by simp [buildCTCCall])
      · split at h
        · exact absurd h (by simp)
        · injection h with h'
          subst h'
          simp [buildStandardCall, identify_actions_forwards_from]

/-- Witness for C9 at a concrete one-leg standard group. -/
theorem standard_call_forwards_from_none_witness : callW9.forwards_from = none :=
  standard_call_forwards_from_none cfgGen [evW9] callW9 (by decide) (by decide)

/-! # C1: exactly one Call per group, or a provable rejection -/

theorem insertBySeq_ne_nil (e : CallEvent) (l : List CallEvent) :
    insertBySeq e l ≠ [] := by
  cases l with
  | nil => simp [insertBySeq]
  | cons x xs =>
    unfold insertBySeq
    split
    · simp
    · simp

theorem sortBySequence_eq_nil_iff (l : List CallEvent) :
    sortBySequence l = [] ↔ l = [] := by
  cases l with
  | nil => simp [sortBySequence]
  | cons x xs =>
    simp only [sortBySequence, List.foldr_cons]
    constructor
    · intro h
      exact absurd h (insertBySeq_ne_nil x _)
    · intro h
      exact absurd h (by simp)

/-- C1.  `analyze_call` is a total function returning at most one Call
per correlation group (rejection is a value, not an exception, so one
rejected group cannot abort the others); it returns no Call exactly when
the group is empty, or when the click-to-call short-circuit does not fire
and the first sequence-sorted leg has an empty raw source or raw
destination; every other group yields exactly one Call. -/
theorem analyze_call_none_iff (cfg : AnalyzerConfig) (events0 : List CallEvent) :
    analyze_call cfg events0 = none ↔
      (events0 = [] ∨
        (ctcBuilt (sortBySequence events0) = false ∧
          (firstSrc (sortBySequence events0) = "" ∨
           firstDst (sortBySequence events0) = ""))) := by
  by_cases he : events0 = []
  · simp [analyze_call, he]
  · rw [analyze_call, if_neg he]
    rcases hsort : sortBySequence events0 with _ | ⟨first, rest⟩
    · exact absurd (by rw [sortBySequence_eq_nil_iff] at hsort; exact hsort) he
    · simp only [analyze_sorted]
      by_cases hc : ctcBuilt (first :: rest) = true
      · have hcond : ((identify_click_to_call (first :: rest)).is_click_to_call &&
            optTruthy (identify_click_to_call (first :: rest)).src &&
            optTruthy (identify_click_to_call (first :: rest)).dst) = true := hc
        simp [hcond, he, hc]
      · have hcf : ctcBuilt (first :: rest) = false := by
          cases hb : ctcBuilt (first :: rest)
          · rfl
          · exact absurd hb hc
        have hcond : ((identify_click_to_call (first :: rest)).is_click_to_call &&
            optTruthy (identify_click_to_call (first :: rest)).src &&
            optTruthy (identify_click_to_call (first :: rest)).dst) = false := hcf
        by_cases hsd : first.src = "" ∨ first.dst = ""
        · simp [hcond, he, hcf, hsd, firstSrc, firstDst]
        · simp [hcond, he, hcf, hsd, firstSrc, firstDst]

/-! # C10: non-negative duration -/

theorem mem_insertBySeq {x e : CallEvent} {l : List CallEvent} :
    x ∈ insertBySeq e l ↔ x = e ∨ x ∈ l := by
  induction l with
  | nil => simp [insertBySeq]
  | cons y ys ih =>
    unfold insertBySeq
    split
    · simp [List.mem_cons]
    · simp only [List.mem_cons, ih]
      tauto

theorem mem_sortBySequence {x : CallEvent} {l : List CallEvent} :
    x ∈ sortBySequence l ↔ x ∈ l := by
  induction l with
  | nil => simp [sortBySequence]
  | cons y ys ih =>
    simp only [sortBySequence, List.foldr_cons] at *
    rw [mem_insertBySeq, ih, List.mem_cons]

theorem sum_billsec_nonneg {l : List CallEvent} (h : ∀ e ∈ l, 0 ≤ e.billsec) :
    0 ≤ (l.map (fun e => e.billsec)).sum := by
  apply List.sum_nonneg
  intro x hx
  obtain ⟨e, he, rfl⟩ := List.mem_map.mp hx
  exact h e he

theorem forward_billsec_nonneg (events : List CallEvent)
    (h : ∀ e ∈ events, 0 ≤ e.billsec) :
    0 ≤ ((get_forward_call_events events).map (fun e => e.billsec)).sum := by
  unfold get_forward_call_events
  split
  · exact sum_billsec_nonneg (fun e he => h e (List.mem_filter.mp he).1)
  · simp

theorem get_call_billsec_nonneg (cfg : AnalyzerConfig) (events : List CallEvent)
    (h : ∀ e ∈ events, 0 ≤ e.billsec) : 0 ≤ get_call_billsec cfg events := by
  unfold get_call_billsec
  split
  · exact le_refl 0
  · split
    · split
      · exact sum_billsec_nonneg h
      · rw [foldl_billsec_filter]
        have := sum_billsec_nonneg
          (l := events.filter (fun e => billsecMatches (refList cfg) e))
          (fun e he => h e (List.mem_filter.mp he).1)
        simpa using this
    · split
      · exact sum_billsec_nonneg (fun e he => h e (List.mem_filter.mp he).1)
      · split
        · exact sum_billsec_nonneg (fun e he => h e (List.mem_filter.mp he).1)
        · exact sum_billsec_nonneg h

theorem identify_click_to_call_duration_nonneg (events : List CallEvent)
    (h : ∀ e ∈ events, 0 ≤ e.billsec) :
    0 ≤ (identify_click_to_call events).duration := by
  unfold identify_click_to_call
  split
  · next f r _hmark =>
    rcases hfind : (f :: r).find? (fun e => containsSub e.context "macro-dial")
        with _ | m
    · simp only [hfind, Option.getD_none]
      exact add_nonneg (h f (by simp)) (forward_billsec_nonneg _ h)
    · have hm : m ∈ f :: r := List.mem_of_find?_eq_some hfind
      simp only [hfind, Option.getD_some]
      exact add_nonneg (h m hm) (forward_billsec_nonneg _ h)
  · simp

/-- C10.  When every leg's billsec is non-negative, any Call produced by
`analyze_call` has a non-negative duration: every duration policy sums
billsec over a subset of the legs, and the click-to-call short-circuit
adds the dial leg's billsec and the forward legs' billsec. -/
theorem analyze_call_duration_nonneg (cfg : AnalyzerConfig)
    (events : List CallEvent) (c : Call)
    (hpos : ∀ e ∈ events, 0 ≤ e.billsec)
    (h : analyze_call cfg events = some c) : 0 ≤ c.duration := by
  have hpos' : ∀ e ∈ sortBySequence events, 0 ≤ e.billsec := fun e he =>
    hpos e (mem_sortBySequence.mp he)
  unfold analyze_call at h
  split at h
  · exact absurd h (by simp)
  · rcases hsort : sortBySequence events with _ | ⟨first, rest⟩
    · rw [hsort] at h
      exact absurd h (by simp [analyze_sorted])
    · rw [hsort] at h
      rw [hsort] at hpos'
      rw [analyze_sorted] at h
      split at h
      · injection h with h'
        subst h'
        have := identify_click_to_call_duration_nonneg (first :: rest) hpos'
        simpa [buildCTCCall] using this
      · split at h
        · exact absurd h (by simp)
        · injection h with h'
          subst h'
          have := get_call_billsec_nonneg cfg (first :: rest) hpos'
          simpa [buildStandardCall] using this

/-- Witness for C10 at a concrete one-leg group with billsec 11. -/
theorem analyze_call_duration_nonneg_witness : 0 ≤ callW10.duration :=
  analyze_call_duration_nonneg cfgGen [evW10] callW10 (by decide) (by decide)
